import Mathlib

/-!
Shallow embedding of `src/pipelines/academic_rag_pipeline.py` (class `Pipeline`):
the academic RAG query pipeline — embedding client, similarity retriever,
context formatter and orchestrator (`pipe`).

Modelling conventions:
* Python floats are modelled as rationals (`ℚ`); the claims under study concern
  the arithmetic relationships (averages, threshold comparisons), not IEEE
  rounding.
* Python strings are Lean `String`s; Python slicing `s[:n]` slices by
  characters, as does `pySlice` below.
* The Python dicts whose key set is dynamic (the `body` argument of `pipe`,
  the assembled `metadata`, the chat messages) are modelled as insertion-ordered
  association lists (`PyDict`).  The document dict built by `search_documents`
  has a fixed, statically known key set, so it is modelled as the record
  `Document`.
* Network and clock effects are passed in explicitly through `Env`: the
  embedding service's behaviour when called (`EmbedResponse`), the vector
  index's behaviour when searched (an `Except` carrying either the raised
  exception's text or the returned result sets), and the wall-clock reads.
* Raised exceptions are `Except.error` values carrying the exception text
  (`str(e)`).
-/

namespace AcademicRag

/-- A Python value, as far as this pipeline manipulates them. -/
inductive Value where
  | str (s : String)
  | int (n : Int)
  | num (q : ℚ)
  | list (vs : List Value)
  | dict (fields : List (String × Value))

/-- An insertion-ordered Python dict with string keys. -/
abbrev PyDict := List (String × Value)

/-- `d[k]` lookup (first — and only, for a genuine dict — binding of `k`). -/
def dictGet? (d : PyDict) (k : String) : Option Value :=
  (d.find? (fun p => p.1 == k)).map Prod.snd

/-- `d[k] = v`: replace the binding in place if `k` is present (Python dicts
keep insertion order for existing keys), otherwise append it. -/
def dictSet (d : PyDict) (k : String) (v : Value) : PyDict :=
  if (d.find? (fun p => p.1 == k)).isSome then
    d.map (fun p => if p.1 == k then (k, v) else p)
  else
    d ++ [(k, v)]

/-- The configuration fields of `Pipeline.Valves` that the retrieval and
formatting logic reads (connection endpoints are consumed by the external
collaborators and carry no logic here). -/
structure Valves where
  TOP_K : Nat
  SCORE_THRESHOLD : ℚ
  SYSTEM_PROMPT : String
  deriving DecidableEq

/-- Default valve values from the source (`TOP_K = 5`, `SCORE_THRESHOLD = 2.0`). -/
def defaultValves : Valves where
  TOP_K := 5
  SCORE_THRESHOLD := 2
  SYSTEM_PROMPT :=
    "You are a highly knowledgeable research analyst with expertise in scientific papers. \n        When answering questions:\n        1. Start with a brief 1-2 sentence summary of your findings\n        2. Cite specific papers with their years when making key points\n        3. Compare findings across papers when possible\n        4. Explain any technical terms in parentheses\n        5. Structure your response as:\n           • Summary\n           • Key Findings (with citations)\n           • Technical Details\n           • References\n\n        Keep responses clear and focused on the most relevant information."

/-- One hit returned by the vector index's `search` call: its L2 distance and
the requested output fields.  A field the underlying record does not carry is
`none`; `search_documents` reads every field with `getattr(entity, f, default)`. -/
structure Hit where
  distance : ℚ
  doc_id : Option Int := none
  source_file : Option String := none
  text : Option String := none
  summary : Option String := none
  abstract : Option String := none
  key_points : Option String := none
  technical_terms : Option String := none
  relationships : Option String := none
  deriving DecidableEq

/-- The document dict built by `search_documents` (fixed key set). -/
structure Document where
  doc_id : Int
  source_file : String
  year : String
  text : String
  summary : String
  abstract : String
  key_points : String
  technical_terms : String
  relationships : String
  score : ℚ
  deriving DecidableEq

/-- Python `s.startswith(pre)`: `pre` is a character-wise prefix of `s`. -/
def pyStartsWith (s pre : String) : Bool := pre.data.isPrefixOf s.data

/-- `source_file.split('-')[0] if source_file.startswith('20') else 'Unknown'` -/
def deriveYear (source_file : String) : String :=
  if pyStartsWith source_file "20" then (source_file.splitOn "-").headD "" else "Unknown"

/-- The document dict constructed for one surviving hit (source lines 195–209):
every field is read defensively with a default. -/
def mkDocument (hit : Hit) : Document :=
  let sf := hit.source_file.getD "Unknown"
  { doc_id := hit.doc_id.getD (-1)
    source_file := sf
    year := deriveYear sf
    text := hit.text.getD ""
    summary := hit.summary.getD ""
    abstract := hit.abstract.getD ""
    key_points := hit.key_points.getD ""
    technical_terms := hit.technical_terms.getD ""
    relationships := hit.relationships.getD ""
    score := hit.distance }

/-- The filtering loop of `search_documents`: keep, in order, every hit whose
distance is at most the score threshold, building its document dict. -/
def searchFilter (valves : Valves) : List Hit → List Document
  | [] => []
  | h :: hs =>
      if h.distance ≤ valves.SCORE_THRESHOLD then
        mkDocument h :: searchFilter valves hs
      else
        searchFilter valves hs

/-- `Pipeline.search_documents`: the index's `search` call either raises (the
exception is logged and re-raised unchanged) or returns one list of hits per
query vector; the nested loops scan the result sets in order and filter by the
score threshold.  `pipe` always passes a single query vector. -/
def search_documents (valves : Valves) (outcome : Except String (List (List Hit))) :
    Except String (List Document) :=
  match outcome with
  | .error e => .error e
  | .ok resultSets => .ok (searchFilter valves resultSets.flatten)

/-- The ASCII characters Python's `str.strip()` removes (the further Unicode
whitespace code points never occur in this pipeline's literals). -/
def pyIsSpace (c : Char) : Bool :=
  c = ' ' || c = '\t' || c = '\n' || c = '\r' || c = '\x0b' || c = '\x0c'

/-- Python `s.strip()`: drop leading and trailing whitespace characters. -/
def pyStrip (s : String) : String :=
  ⟨((s.data.dropWhile pyIsSpace).reverse.dropWhile pyIsSpace).reverse⟩

/-- Python `sep.join(parts)`. -/
def pyJoin (sep : String) : List String → String
  | [] => ""
  | [x] => x
  | x :: y :: ys => x ++ sep ++ pyJoin sep (y :: ys)

/-- Python `s[:n]`: the first `n` characters of `s`. -/
def pySlice (s : String) (n : Nat) : String := ⟨s.data.take n⟩

/-- `Pipeline.format_bullet_points` (source lines 249–255): the empty string
maps to the fixed placeholder; otherwise split on the separator, strip each
token, drop the tokens that strip to empty, prefix a bullet, join by newline. -/
def format_bullet_points (text : String) (separator : String := ",") : String :=
  if text = "" then "Not available"
  else
    pyJoin "\n"
      (((((text.splitOn separator).map pyStrip).filter (fun p => p ≠ "")).map
        (fun p => "• " ++ p)))

/-- Character cutoff of the abstract excerpt (`doc['abstract'][:500]`). -/
def ABSTRACT_TRUNC : Nat := 500

/-- Character cutoff of the raw-text excerpt (`doc['text'][:1000]`). -/
def TEXT_TRUNC : Nat := 1000

/-- Character cutoff of the user-metadata summary excerpt (`doc['summary'][:200]`). -/
def SUMMARY_TRUNC : Nat := 200

/-- A length-capped excerpt followed by the continuation marker: `s[:n] + "..."`. -/
def truncExcerpt (s : String) (n : Nat) : String := pySlice s n ++ "..."

/-- Round-half-even to an integer; CPython's fixed-point `format` rounding on
the exact value (the detour through binary floating point is abstracted away —
no claim depends on the rendered digits). -/
def roundHalfEven (x : ℚ) : ℤ :=
  let f := ⌊x⌋
  let frac := x - f
  if frac < 1/2 then f
  else if 1/2 < frac then f + 1
  else if f % 2 = 0 then f else f + 1

/-- Python `f"{q:.d f}"`: fixed-point rendering with `d` fractional digits. -/
def formatFixed (d : Nat) (q : ℚ) : String :=
  let n := roundHalfEven (q * (10 : ℚ) ^ d)
  let sign := if n < 0 then "-" else ""
  let m := n.natAbs
  let fracDigits := toString (m % 10 ^ d)
  let pad := String.mk (List.replicate (d - fracDigits.length) '0')
  sign ++ toString (m / 10 ^ d) ++ "." ++ pad ++ fracDigits

/-- The model-facing section built for the `i`-th document
(`format_context`, source lines 227–236). -/
def llm_section (i : Nat) (doc : Document) : String :=
  "Document " ++ toString i ++ " (" ++ doc.year ++ "): " ++ doc.source_file ++ "\n\n" ++
  "Abstract:\n" ++ truncExcerpt doc.abstract ABSTRACT_TRUNC ++ "\n\n" ++
  "Key Points:\n" ++ format_bullet_points doc.key_points ++ "\n\n" ++
  "Technical Terms:\n" ++ format_bullet_points doc.technical_terms ++ "\n\n" ++
  "Most Relevant Content:\n" ++ truncExcerpt doc.text TEXT_TRUNC ++ "\n\n" ++
  "Relationships:\n" ++ format_bullet_points doc.relationships ++ "\n\n" ++
  "Relevance Score: " ++ formatFixed 4 doc.score ++ "\n" ++
  "---\n"

/-- The compact user-facing metadata dict built for one document
(`format_context`, source lines 239–245). -/
def mkUserMeta (doc : Document) : PyDict :=
  [("source", .str (doc.source_file ++ " (" ++ doc.year ++ ")")),
   ("summary", .str (if doc.summary ≠ "" then truncExcerpt doc.summary SUMMARY_TRUNC
                     else "No summary available")),
   ("key_points", .str doc.key_points),
   ("relevance_score", .num doc.score),
   ("technical_terms", .str doc.technical_terms)]

/-- The model-facing sections of a document list, ordinals counted from `i`
(`enumerate(documents, 1)` is `llm_sections 1`). -/
def llm_sections : Nat → List Document → List String
  | _, [] => []
  | i, d :: ds => llm_section i d :: llm_sections (i + 1) ds

/-- `Pipeline.format_context`: the `"\n"`-joined model-facing sections paired
with the user-facing metadata dicts, one per document, in document order. -/
def format_context (documents : List Document) : String × List PyDict :=
  (pyJoin "\n" (llm_sections 1 documents), documents.map mkUserMeta)

/-- The embedding dimension `get_embedding` accepts (source line 150). -/
def EXPECTED_DIM : Nat := 4096

/-- What the embedding service call produces when `get_embedding` runs:
either some exception is raised along the way (`requests.RequestException`
after the retry budget, a non-2xx status, a malformed body indexed at
`data[0]["embedding"]`, …) carrying its text, or a parsed embedding vector. -/
inductive EmbedResponse where
  | failure (msg : String)
  | success (embedding : List ℚ)
  deriving DecidableEq

/-- `Pipeline.get_embedding` (source lines 129–162): every raised exception is
caught and mapped to `None`; a parsed vector is returned only if its length is
exactly `EXPECTED_DIM`, else `None` — never a truncated or padded vector. -/
def get_embedding (resp : EmbedResponse) : Option (List ℚ) :=
  match resp with
  | .failure _ => none
  | .success embedding =>
      if embedding.length ≠ EXPECTED_DIM then none else some embedding

/-- Python truthiness test `not embedding` on `Optional[List[float]]`. -/
def pyFalsy : Option (List ℚ) → Bool
  | none => true
  | some l => l.isEmpty

/-- The ambient effects of one `pipe` run: what the embedding service and the
vector index do when called, and the three wall-clock reads
(`time.time()` at start, inside the metadata, and at the end). -/
structure Env where
  embedResponse : EmbedResponse
  searchOutcome : Except String (List (List Hit))
  startTime : ℚ
  queryTimestamp : ℚ
  endTime : ℚ

/-- Which collaborators a `pipe` run invoked. -/
structure PipeTrace where
  embed_called : Bool
  search_called : Bool
  format_called : Bool
  deriving DecidableEq

/-- The rebuilt message list of the success path (source lines 272–280):
a system turn carrying the system prompt and a user turn interpolating the
model-facing context and the original query. -/
def pipeMessages (valves : Valves) (user_message context : String) : Value :=
  .list
    [ .dict [("role", .str "system"), ("content", .str valves.SYSTEM_PROMPT)],
      .dict [("role", .str "user"), ("content", .str (
        "Based on these academic papers:\n\n" ++ context ++ "\n\n" ++
        "Please answer this question: " ++ user_message ++ "\n\n" ++
        "Remember to include year citations and structure your response " ++
        "with clear sections as specified."))] ]

/-- The metadata dict of the success path (source lines 284–290). -/
def pipeMetadata (env : Env) (documents : List Document)
    (user_metadata : List PyDict) : PyDict :=
  [("sources", .list (user_metadata.map Value.dict)),
   ("query_timestamp", .num env.queryTimestamp),
   ("total_sources", .int documents.length),
   ("average_score", .num ((documents.map Document.score).sum / (documents.length : ℚ))),
   ("processing_time", .str (formatFixed 2 (env.endTime - env.startTime) ++ "s"))]

/-- The augmented `body` assembled on the success path of `pipe`
(source lines 271–293): the rebuilt message list and the metadata dict are
stored into the caller's `body` dict, which is then returned. -/
def pipeBody (valves : Valves) (env : Env) (user_message : String)
    (documents : List Document) (body : PyDict) : PyDict :=
  let fc := format_context documents
  dictSet (dictSet body "messages" (pipeMessages valves user_message fc.1))
    "metadata" (.dict (pipeMetadata env documents fc.2))

/-- `Pipeline.pipe` (source lines 257–297), paired with the trace of which
collaborators were invoked.  There is no query validation: `get_embedding` is
called first on every run.  A falsy embedding or an empty document list
short-circuits to a fixed message; an exception raised by `search_documents`
is caught by the enclosing handler and rendered with the fixed prefix. -/
def pipe (valves : Valves) (env : Env) (user_message : String) (model_id : String)
    (messages : List Value) (body : PyDict) : (String ⊕ PyDict) × PipeTrace :=
  let embedding := get_embedding env.embedResponse
  if pyFalsy embedding then
    (.inl "Failed to generate embedding for your question.",
     ⟨true, false, false⟩)
  else
    match search_documents valves env.searchOutcome with
    | .error e =>
        (.inl ("An error occurred while processing your request: " ++ e),
         ⟨true, true, false⟩)
    | .ok documents =>
        if documents.isEmpty then
          (.inl "No relevant academic papers found for your question.",
           ⟨true, true, false⟩)
        else
          (.inr (pipeBody valves env user_message documents body),
           ⟨true, true, true⟩)

/-! ### Concrete fixtures used by witnesses and counterexamples -/

/-- A reference all-zero embedding vector of the accepted dimension. -/
def zeroVec : List ℚ := List.replicate EXPECTED_DIM 0

/-- A candidate hit within the default score threshold. -/
def oneHit : Hit := { distance := 1 }

/-- A candidate hit beyond the default score threshold. -/
def farHit : Hit := { distance := 5 }

/-- An environment in which both collaborators behave: the embedding service
returns a valid 4096-dimensional vector and the index returns one in-threshold
hit. -/
def okEnv : Env where
  embedResponse := .success zeroVec
  searchOutcome := .ok [[oneHit]]
  startTime := 0
  queryTimestamp := 0
  endTime := 0

/-- An environment whose embedding service answers with a 10-float vector. -/
def shortVecEnv : Env where
  embedResponse := .success (List.replicate 10 0)
  searchOutcome := .ok [[oneHit]]
  startTime := 0
  queryTimestamp := 0
  endTime := 0

/-- An environment whose only candidate lies beyond the score threshold. -/
def farEnv : Env where
  embedResponse := .success zeroVec
  searchOutcome := .ok [[farHit]]
  startTime := 0
  queryTimestamp := 0
  endTime := 0

/-- An environment whose index search raises (e.g. the index is unreachable). -/
def errEnv : Env where
  embedResponse := .success zeroVec
  searchOutcome := .error "connection refused"
  startTime := 0
  queryTimestamp := 0
  endTime := 0

/-- Two in-threshold candidates at distances 0.5 and 1.8. -/
def hitHalf : Hit := { distance := 1/2 }

/-- See `hitHalf`. -/
def hitNine5 : Hit := { distance := 9/5 }

/-- An environment for the end-to-end two-document run: valid embedding,
two candidates at distances 0.5 and 1.8 under threshold 2.0. -/
def twoDocEnv : Env where
  embedResponse := .success zeroVec
  searchOutcome := .ok [[hitHalf, hitNine5]]
  startTime := 0
  queryTimestamp := 0
  endTime := 0

/-- A 2000-character text field. -/
def longText : String := ⟨List.replicate 2000 'a'⟩

/-- A hit whose underlying record carries none of the requested fields. -/
def noFieldsHit : Hit := { distance := 0 }

/-- A caller body holding an unrelated key. -/
def tempBody : PyDict := [("temperature", Value.num 1)]

/-- A hit carrying empty strings in every text field (fields present but empty). -/
def emptyFieldsHit : Hit where
  distance := 0
  source_file := some "paper.pdf"
  text := some ""
  summary := some ""
  abstract := some ""
  key_points := some ""
  technical_terms := some ""
  relationships := some ""

/-! ### Helper lemmas -/

theorem searchFilter_eq_filterMap (valves : Valves) (hits : List Hit) :
    searchFilter valves hits =
      (hits.filter (fun h => decide (h.distance ≤ valves.SCORE_THRESHOLD))).map mkDocument := by
  induction hits with
  | nil => rfl
  | cons h hs ih =>
      by_cases hc : h.distance ≤ valves.SCORE_THRESHOLD <;>
        simp [searchFilter, List.filter_cons, hc, ih]

theorem score_mkDocument (h : Hit) : (mkDocument h).score = h.distance := rfl

theorem searchFilter_scores (valves : Valves) (hits : List Hit) :
    (searchFilter valves hits).map Document.score =
      (hits.map Hit.distance).filter (fun q => decide (q ≤ valves.SCORE_THRESHOLD)) := by
  induction hits with
  | nil => rfl
  | cons h hs ih =>
      by_cases hc : h.distance ≤ valves.SCORE_THRESHOLD <;>
        simp [searchFilter, List.filter_cons, hc, ih, score_mkDocument]

theorem zeroVec_length : zeroVec.length = EXPECTED_DIM := List.length_replicate ..

theorem get_embedding_zeroVec : get_embedding (.success zeroVec) = some zeroVec := by
  show (if zeroVec.length ≠ EXPECTED_DIM then none else some zeroVec) = some zeroVec
  rw [zeroVec_length]
  simp

theorem pyFalsy_get_embedding_zeroVec :
    pyFalsy (get_embedding (.success zeroVec)) = false := by
  rw [get_embedding_zeroVec]
  show zeroVec.isEmpty = false
  rw [List.isEmpty_eq_false_iff_exists_mem]
  exact ⟨0, by rw [zeroVec, List.mem_replicate]; simp [EXPECTED_DIM]⟩

theorem pipe_embed_failed (valves : Valves) (env : Env) (um mid : String)
    (msgs : List Value) (body : PyDict)
    (h : pyFalsy (get_embedding env.embedResponse) = true) :
    pipe valves env um mid msgs body =
      (.inl "Failed to generate embedding for your question.", ⟨true, false, false⟩) := by
  unfold pipe
  simp only [h, if_true]

theorem pipe_search_error (valves : Valves) (env : Env) (um mid : String)
    (msgs : List Value) (body : PyDict) (e : String)
    (h : pyFalsy (get_embedding env.embedResponse) = false)
    (he : env.searchOutcome = .error e) :
    pipe valves env um mid msgs body =
      (.inl ("An error occurred while processing your request: " ++ e),
       ⟨true, true, false⟩) := by
  unfold pipe search_documents
  simp only [h, he, Bool.false_eq_true, if_false]

theorem pipe_no_docs (valves : Valves) (env : Env) (um mid : String)
    (msgs : List Value) (body : PyDict) (hits : List (List Hit))
    (h : pyFalsy (get_embedding env.embedResponse) = false)
    (hok : env.searchOutcome = .ok hits)
    (hempty : searchFilter valves hits.flatten = []) :
    pipe valves env um mid msgs body =
      (.inl "No relevant academic papers found for your question.",
       ⟨true, true, false⟩) := by
  unfold pipe search_documents
  simp only [h, hok, hempty, Bool.false_eq_true, if_false, List.isEmpty_nil, if_true]

theorem pipe_success (valves : Valves) (env : Env) (um mid : String)
    (msgs : List Value) (body : PyDict) (hits : List (List Hit))
    (h : pyFalsy (get_embedding env.embedResponse) = false)
    (hok : env.searchOutcome = .ok hits)
    (hne : searchFilter valves hits.flatten ≠ []) :
    pipe valves env um mid msgs body =
      (.inr (pipeBody valves env um (searchFilter valves hits.flatten) body),
       ⟨true, true, true⟩) := by
  unfold pipe search_documents
  have hE : (searchFilter valves hits.flatten).isEmpty = false := by
    rw [List.isEmpty_eq_false]
    exact hne
  simp only [h, hok, hE, Bool.false_eq_true, if_false]

/-! ### Claims -/

/-- C1: on a candidate list returned by the index in ascending distance order
and holding at most top-K hits, `search_documents`' filtering keeps exactly the
candidates whose score is at most the threshold, as a subsequence of the
unfiltered candidate list, in ascending-score order, with at most top-K
elements. -/
theorem C1_search_filtering (valves : Valves) (hits : List Hit)
    (hsorted : (hits.map Hit.distance).Sorted (· ≤ ·))
    (hlen : hits.length ≤ valves.TOP_K) :
    searchFilter valves hits =
        (hits.filter (fun h => decide (h.distance ≤ valves.SCORE_THRESHOLD))).map mkDocument
    ∧ (∀ d ∈ searchFilter valves hits, d.score ≤ valves.SCORE_THRESHOLD)
    ∧ (searchFilter valves hits).Sublist (hits.map mkDocument)
    ∧ ((searchFilter valves hits).map Document.score).Sorted (· ≤ ·)
    ∧ (searchFilter valves hits).length ≤ valves.TOP_K := by
  refine ⟨searchFilter_eq_filterMap valves hits, ?_, ?_, ?_, ?_⟩
  · intro d hd
    rw [searchFilter_eq_filterMap] at hd
    obtain ⟨h, hmem, rfl⟩ := List.mem_map.mp hd
    have hp := (List.mem_filter.mp hmem).2
    rw [score_mkDocument]
    exact of_decide_eq_true hp
  · rw [searchFilter_eq_filterMap]
    exact (List.filter_sublist hits).map mkDocument
  · rw [searchFilter_scores]
    exact List.Pairwise.sublist (List.filter_sublist _) hsorted
  · rw [searchFilter_eq_filterMap, List.length_map]
    exact le_trans (List.length_filter_le _ hits) hlen

/-- C1 witness: two candidates at distances 1/2 and 9/5 under the default
configuration (top-K 5, threshold 2). -/
theorem C1_search_filtering_witness :
    (([{distance := 1/2}, {distance := 9/5}] : List Hit).map Hit.distance).Sorted (· ≤ ·)
    ∧ ([{distance := 1/2}, {distance := 9/5}] : List Hit).length ≤ defaultValves.TOP_K
    ∧ (searchFilter defaultValves [{distance := 1/2}, {distance := 9/5}] =
          (([{distance := 1/2}, {distance := 9/5}] : List Hit).filter
            (fun h => decide (h.distance ≤ defaultValves.SCORE_THRESHOLD))).map mkDocument
       ∧ (∀ d ∈ searchFilter defaultValves [{distance := 1/2}, {distance := 9/5}],
            d.score ≤ defaultValves.SCORE_THRESHOLD)
       ∧ (searchFilter defaultValves [{distance := 1/2}, {distance := 9/5}]).Sublist
            (([{distance := 1/2}, {distance := 9/5}] : List Hit).map mkDocument)
       ∧ ((searchFilter defaultValves [{distance := 1/2}, {distance := 9/5}]).map
            Document.score).Sorted (· ≤ ·)
       ∧ (searchFilter defaultValves [{distance := 1/2}, {distance := 9/5}]).length ≤
            defaultValves.TOP_K) :=
  ⟨by simp [List.sorted_cons]; norm_num, by decide,
   C1_search_filtering defaultValves _ (by simp [List.sorted_cons]; norm_num) (by decide)⟩

theorem searchFilter_oneHit_ne_nil :
    searchFilter defaultValves ([[oneHit]] : List (List Hit)).flatten ≠ [] := by
  have h12 : (1 : ℚ) ≤ 2 := by norm_num
  simp [searchFilter, oneHit, defaultValves, h12]

/-- C2 counterexample: on the empty-string query, `pipe` DOES invoke the
embedding client, and (in an environment where the embedding and search
succeed) returns the augmented body, not a fixed empty-query apology — the
source has no query validation step. -/
theorem C2_counterexample :
    (pipe defaultValves okEnv "" "model_id" [] []).2.embed_called = true
    ∧ (pipe defaultValves okEnv "" "model_id" [] []).1
        = .inr (pipeBody defaultValves okEnv ""
            (searchFilter defaultValves ([[oneHit]] : List (List Hit)).flatten) []) := by
  rw [pipe_success defaultValves okEnv "" "model_id" [] [] [[oneHit]]
      pyFalsy_get_embedding_zeroVec rfl searchFilter_oneHit_ne_nil]
  exact ⟨rfl, rfl⟩

/-- C2 amended: `pipe` performs no empty-query validation.  The embedding
client is invoked on every run — for the empty-string query exactly as for any
other — and the trace of invoked collaborators does not depend on the query
text at all; there is no fixed empty-query apology message in the code. -/
theorem C2_amended_no_validation (valves : Valves) (env : Env)
    (user_message mid : String) (msgs : List Value) (body : PyDict) :
    (pipe valves env user_message mid msgs body).2.embed_called = true
    ∧ (pipe valves env user_message mid msgs body).2
        = (pipe valves env "" mid msgs body).2 := by
  cases h : pyFalsy (get_embedding env.embedResponse) with
  | true =>
      rw [pipe_embed_failed valves env user_message mid msgs body h,
          pipe_embed_failed valves env "" mid msgs body h]
      exact ⟨rfl, rfl⟩
  | false =>
      cases hs : env.searchOutcome with
      | error e =>
          rw [pipe_search_error valves env user_message mid msgs body e h hs,
              pipe_search_error valves env "" mid msgs body e h hs]
          exact ⟨rfl, rfl⟩
      | ok hits =>
          by_cases hemp : searchFilter valves hits.flatten = []
          · rw [pipe_no_docs valves env user_message mid msgs body hits h hs hemp,
                pipe_no_docs valves env "" mid msgs body hits h hs hemp]
            exact ⟨rfl, rfl⟩
          · rw [pipe_success valves env user_message mid msgs body hits h hs hemp,
                pipe_success valves env "" mid msgs body hits h hs hemp]
            exact ⟨rfl, rfl⟩

/-- C3: a parsed embedding vector whose length differs from the expected 4096
makes `get_embedding` return the failure value — never a truncated or padded
vector — and `pipe` then returns the fixed failure message without invoking
the retriever. -/
theorem C3_invalid_dimension (valves : Valves) (env : Env) (emb : List ℚ)
    (um mid : String) (msgs : List Value) (body : PyDict)
    (hresp : env.embedResponse = .success emb)
    (hdim : emb.length ≠ EXPECTED_DIM) :
    get_embedding env.embedResponse = none
    ∧ (pipe valves env um mid msgs body).1
        = .inl "Failed to generate embedding for your question."
    ∧ (pipe valves env um mid msgs body).2.search_called = false := by
  have hge : get_embedding env.embedResponse = none := by
    rw [hresp]
    show (if emb.length ≠ EXPECTED_DIM then none else some emb) = none
    simp [hdim]
  have hfal : pyFalsy (get_embedding env.embedResponse) = true := by rw [hge]; rfl
  rw [pipe_embed_failed valves env um mid msgs body hfal]
  exact ⟨hge, rfl, rfl⟩

/-- C3 witness: a 10-float response when 4096 is expected. -/
theorem C3_invalid_dimension_witness :
    shortVecEnv.embedResponse = .success (List.replicate 10 (0 : ℚ))
    ∧ (List.replicate 10 (0 : ℚ)).length ≠ EXPECTED_DIM
    ∧ (get_embedding shortVecEnv.embedResponse = none
       ∧ (pipe defaultValves shortVecEnv "What is dark matter?" "m" [] []).1
           = .inl "Failed to generate embedding for your question."
       ∧ (pipe defaultValves shortVecEnv "What is dark matter?" "m" [] []).2.search_called
           = false) :=
  ⟨rfl, by rw [List.length_replicate]; decide,
   C3_invalid_dimension defaultValves shortVecEnv (List.replicate 10 0)
     "What is dark matter?" "m" [] [] rfl (by rw [List.length_replicate]; decide)⟩

theorem no_results_ne_error_msg (e : String) :
    ("No relevant academic papers found for your question." : String)
      ≠ "An error occurred while processing your request: " ++ e := by
  intro h
  have hd := congrArg (fun s : String => s.data.head?) h
  simp only [String.data_append] at hd
  simp at hd

/-- C4: when no document survives the threshold filter, `pipe` returns the
fixed "no relevant results" message, the formatter is not invoked, and the
outcome is not the error path (its message differs from every error-path
message). -/
theorem C4_no_results (valves : Valves) (env : Env) (um mid : String)
    (msgs : List Value) (body : PyDict) (hits : List (List Hit))
    (hemb : pyFalsy (get_embedding env.embedResponse) = false)
    (hok : env.searchOutcome = .ok hits)
    (hempty : searchFilter valves hits.flatten = []) :
    (pipe valves env um mid msgs body).1
        = .inl "No relevant academic papers found for your question."
    ∧ (pipe valves env um mid msgs body).2.format_called = false
    ∧ ∀ e : String, (pipe valves env um mid msgs body).1
        ≠ .inl ("An error occurred while processing your request: " ++ e) := by
  rw [pipe_no_docs valves env um mid msgs body hits hemb hok hempty]
  refine ⟨rfl, rfl, fun e h => ?_⟩
  exact no_results_ne_error_msg e (Sum.inl.inj h)

/-- C4 witness: one candidate at distance 5 under threshold 2 — the filtered
set is empty and the fixed message is returned. -/
theorem C4_no_results_witness :
    pyFalsy (get_embedding farEnv.embedResponse) = false
    ∧ farEnv.searchOutcome = .ok [[farHit]]
    ∧ searchFilter defaultValves ([[farHit]] : List (List Hit)).flatten = []
    ∧ ((pipe defaultValves farEnv "q" "m" [] []).1
        = .inl "No relevant academic papers found for your question."
       ∧ (pipe defaultValves farEnv "q" "m" [] []).2.format_called = false
       ∧ ∀ e : String, (pipe defaultValves farEnv "q" "m" [] []).1
           ≠ .inl ("An error occurred while processing your request: " ++ e)) := by
  have hempty : searchFilter defaultValves ([[farHit]] : List (List Hit)).flatten = [] := by
    have h52 : ¬ (5 : ℚ) ≤ 2 := by norm_num
    simp [searchFilter, farHit, defaultValves, h52]
  exact ⟨pyFalsy_get_embedding_zeroVec, rfl, hempty,
    C4_no_results defaultValves farEnv "q" "m" [] [] [[farHit]]
      pyFalsy_get_embedding_zeroVec rfl hempty⟩

theorem bullet_append_ne_not_available (z : String) : ("• " ++ z) ≠ "Not available" := by
  intro h
  have hd := congrArg (fun s : String => s.data.head?) h
  simp only [String.data_append] at hd
  simp only [List.cons_append, List.head?_cons, Option.some.injEq] at hd
  exact absurd hd (by decide)

theorem pyJoin_bullets_ne_not_available (ps : List String) :
    pyJoin "\n" (ps.map (fun p => "• " ++ p)) ≠ "Not available" := by
  cases ps with
  | nil => decide
  | cons p ps' =>
      cases ps' with
      | nil => exact bullet_append_ne_not_available p
      | cons q qs =>
          show (("• " ++ p) ++ "\n" ++ pyJoin "\n" (("• " ++ q) :: qs.map _)) ≠ _
          rw [String.append_assoc, String.append_assoc]
          exact bullet_append_ne_not_available _

/-- C5: `format_bullet_points` returns the fixed placeholder exactly on the
empty string; on every non-empty string it returns the separator-split,
whitespace-trimmed, nonempty tokens, each bulleted, joined by newlines. -/
theorem C5_bullet_points (text separator : String) :
    (format_bullet_points text separator = "Not available" ↔ text = "")
    ∧ (text ≠ "" →
        format_bullet_points text separator =
          pyJoin "\n"
            ((((text.splitOn separator).map pyStrip).filter (fun p => p ≠ "")).map
              (fun p => "• " ++ p))) := by
  refine ⟨⟨fun h => ?_, fun h => ?_⟩, fun hne => ?_⟩
  · by_contra hne
    rw [format_bullet_points, if_neg hne] at h
    exact pyJoin_bullets_ne_not_available _ h
  · rw [format_bullet_points, if_pos h]
  · rw [format_bullet_points, if_neg hne]

/-- C5 witness: the two-token string "a, b" is non-empty, is not mapped to the
placeholder, and is rendered as the bulleted join of its trimmed tokens. -/
theorem C5_bullet_points_witness :
    ("a, b" : String) ≠ ""
    ∧ (format_bullet_points "a, b" "," = "Not available" ↔ ("a, b" : String) = "")
    ∧ format_bullet_points "a, b" ","
        = pyJoin "\n"
            ((((("a, b" : String).splitOn ",").map pyStrip).filter (fun p => p ≠ "")).map
              (fun p => "• " ++ p)) :=
  ⟨by decide, (C5_bullet_points "a, b" ",").1, (C5_bullet_points "a, b" ",").2 (by decide)⟩

theorem find?_map_set_ne (d : PyDict) (k k' : String) (v : Value) (hkk : k ≠ k') :
    List.find? (fun p => p.1 == k) (d.map (fun p => if p.1 == k' then (k', v) else p))
      = List.find? (fun p => p.1 == k) d := by
  induction d with
  | nil => rfl
  | cons p t ih =>
      by_cases hpk' : p.1 = k'
      · have hb : (p.1 == k') = true := beq_iff_eq.mpr hpk'
        have hk'k : (k' == k) = false := beq_eq_false_iff_ne.mpr (Ne.symm hkk)
        have hpk : (p.1 == k) = false := by
          rw [hpk']
          exact hk'k
        simp only [List.map_cons, hb, if_true]
        rw [List.find?_cons_of_neg _ (by simp [hk'k]),
            List.find?_cons_of_neg _ (by simp [hpk])]
        exact ih
      · have hb : (p.1 == k') = false := beq_eq_false_iff_ne.mpr hpk'
        simp only [List.map_cons, hb, Bool.false_eq_true, if_false]
        by_cases hpk : p.1 = k
        · have hbk : (p.1 == k) = true := beq_iff_eq.mpr hpk
          rw [List.find?_cons_of_pos _ (by simp [hbk]),
              List.find?_cons_of_pos _ (by simp [hbk])]
        · have hbk : (p.1 == k) = false := beq_eq_false_iff_ne.mpr hpk
          rw [List.find?_cons_of_neg _ (by simp [hbk]),
              List.find?_cons_of_neg _ (by simp [hbk])]
          exact ih

theorem dictGet?_dictSet_ne (d : PyDict) (k k' : String) (v : Value) (hkk : k ≠ k') :
    dictGet? (dictSet d k' v) k = dictGet? d k := by
  unfold dictSet dictGet?
  by_cases hmem : (List.find? (fun p => p.1 == k') d).isSome
  · rw [if_pos hmem, find?_map_set_ne d k k' v hkk]
  · rw [if_neg hmem, List.find?_append]
    have hnone : List.find? (fun p => p.1 == k) [(k', v)] = none := by
      have hk'k : (k' == k) = false := beq_eq_false_iff_ne.mpr (Ne.symm hkk)
      simp [List.find?_cons, hk'k]
    rw [hnone, Option.or_none]

theorem find?_map_set_self (d : PyDict) (k : String) (v : Value)
    (hmem : (List.find? (fun p => p.1 == k) d).isSome = true) :
    List.find? (fun p => p.1 == k) (d.map (fun p => if p.1 == k then (k, v) else p))
      = some (k, v) := by
  induction d with
  | nil => simp at hmem
  | cons p t ih =>
      by_cases hpk : p.1 = k
      · have hb : (p.1 == k) = true := beq_iff_eq.mpr hpk
        simp only [List.map_cons, hb, if_true]
        rw [List.find?_cons_of_pos _ (by simp)]
      · have hb : (p.1 == k) = false := beq_eq_false_iff_ne.mpr hpk
        simp only [List.map_cons, hb, Bool.false_eq_true, if_false]
        rw [List.find?_cons_of_neg _ (by simp [hb])]
        rw [List.find?_cons_of_neg _ (by simp [hb])] at hmem
        exact ih hmem

theorem dictGet?_dictSet_self (d : PyDict) (k : String) (v : Value) :
    dictGet? (dictSet d k v) k = some v := by
  unfold dictSet dictGet?
  by_cases hmem : (List.find? (fun p => p.1 == k) d).isSome
  · rw [if_pos hmem, find?_map_set_self d k v hmem]
    rfl
  · rw [if_neg hmem, List.find?_append]
    have hself : List.find? (fun p => p.1 == k) [(k, v)] = some (k, v) := by
      simp [List.find?_cons]
    rw [hself]
    cases hfd : List.find? (fun p => p.1 == k) d with
    | none => rfl
    | some p => rw [hfd] at hmem; simp at hmem

theorem llm_section_label (i : Nat) (d : Document) :
    llm_section i d
      = ("Document " ++ toString i ++ " (")
        ++ (d.year ++ "): " ++ d.source_file ++ "\n\n"
            ++ "Abstract:\n" ++ truncExcerpt d.abstract ABSTRACT_TRUNC ++ "\n\n"
            ++ "Key Points:\n" ++ format_bullet_points d.key_points ++ "\n\n"
            ++ "Technical Terms:\n" ++ format_bullet_points d.technical_terms ++ "\n\n"
            ++ "Most Relevant Content:\n" ++ truncExcerpt d.text TEXT_TRUNC ++ "\n\n"
            ++ "Relationships:\n" ++ format_bullet_points d.relationships ++ "\n\n"
            ++ "Relevance Score: " ++ formatFixed 4 d.score ++ "\n" ++ "---\n") := by
  rw [llm_section]
  simp only [String.append_assoc]

/-- C6: on the success path, for EVERY non-empty list of surviving documents,
the attached metadata has `total_sources` equal to the number of documents and
`average_score` equal to the arithmetic mean (sum of scores over count); in
particular, for exactly two surviving documents the metadata reads
`total_sources = 2` and `average_score = (s1+s2)/2`, and the model-facing
context is the two "Document" sections in list (hence ascending-score)
order. -/
theorem C6_metadata_and_context (valves : Valves) (env : Env) (um mid : String)
    (msgs : List Value) (body : PyDict) (hits : List (List Hit))
    (hemb : pyFalsy (get_embedding env.embedResponse) = false)
    (hok : env.searchOutcome = .ok hits)
    (hne : searchFilter valves hits.flatten ≠ []) :
    (pipe valves env um mid msgs body).1
        = .inr (pipeBody valves env um (searchFilter valves hits.flatten) body)
    ∧ dictGet? (pipeMetadata env (searchFilter valves hits.flatten)
          ((format_context (searchFilter valves hits.flatten)).2)) "total_sources"
        = some (.int (searchFilter valves hits.flatten).length)
    ∧ dictGet? (pipeMetadata env (searchFilter valves hits.flatten)
          ((format_context (searchFilter valves hits.flatten)).2)) "average_score"
        = some (.num (((searchFilter valves hits.flatten).map Document.score).sum
            / ((searchFilter valves hits.flatten).length : ℚ)))
    ∧ dictGet? (pipeBody valves env um (searchFilter valves hits.flatten) body) "metadata"
        = some (.dict (pipeMetadata env (searchFilter valves hits.flatten)
            ((format_context (searchFilter valves hits.flatten)).2)))
    ∧ ∀ d1 d2, searchFilter valves hits.flatten = [d1, d2] →
        (dictGet? (pipeMetadata env [d1, d2] ((format_context [d1, d2]).2)) "total_sources"
            = some (.int 2)
         ∧ dictGet? (pipeMetadata env [d1, d2] ((format_context [d1, d2]).2)) "average_score"
            = some (.num ((d1.score + d2.score) / 2))
         ∧ (format_context [d1, d2]).1 = llm_section 1 d1 ++ "\n" ++ llm_section 2 d2
         ∧ (∃ r1, llm_section 1 d1 = "Document 1 (" ++ r1)
         ∧ (∃ r2, llm_section 2 d2 = "Document 2 (" ++ r2)
         ∧ ((hits.flatten.map Hit.distance).Sorted (· ≤ ·) → d1.score ≤ d2.score)) := by
  refine ⟨?_, rfl, rfl, dictGet?_dictSet_self _ "metadata" _, ?_⟩
  · rw [pipe_success valves env um mid msgs body hits hemb hok hne]
  · intro d1 d2 hdocs
    have havg : (([d1, d2].map Document.score).sum / (([d1, d2] : List Document).length : ℚ))
        = (d1.score + d2.score) / 2 := by
      simp [List.sum_cons]
    have h2 : dictGet? (pipeMetadata env [d1, d2] ((format_context [d1, d2]).2))
        "average_score"
        = some (.num (([d1, d2].map Document.score).sum
            / (([d1, d2] : List Document).length : ℚ))) := rfl
    refine ⟨rfl, ?_, rfl, ?_, ?_, ?_⟩
    · rw [h2, havg]
    · exact ⟨_, by rw [llm_section_label 1 d1,
        show ("Document " ++ toString 1 ++ " (" : String) = "Document 1 (" from by decide]⟩
    · exact ⟨_, by rw [llm_section_label 2 d2,
        show ("Document " ++ toString 2 ++ " (" : String) = "Document 2 (" from by decide]⟩
    · intro hsorted
      have hsc := searchFilter_scores valves hits.flatten
      rw [hdocs] at hsc
      have hsub : List.Sorted (· ≤ ·)
          ((hits.flatten.map Hit.distance).filter
            (fun q => decide (q ≤ valves.SCORE_THRESHOLD))) :=
        List.Pairwise.sublist (List.filter_sublist _) hsorted
      rw [← hsc] at hsub
      simp only [List.map_cons, List.map_nil, List.sorted_cons] at hsub
      exact hsub.1 d2.score (by simp)

/-- C6 witness: the end-to-end two-document run — scores 0.5 and 1.8 under
threshold 2.0 give `total_sources = 2` and `average_score = 1.15 = 23/20`. -/
theorem C6_metadata_and_context_witness :
    pyFalsy (get_embedding twoDocEnv.embedResponse) = false
    ∧ twoDocEnv.searchOutcome = .ok [[hitHalf, hitNine5]]
    ∧ searchFilter defaultValves ([[hitHalf, hitNine5]] : List (List Hit)).flatten ≠ []
    ∧ searchFilter defaultValves ([[hitHalf, hitNine5]] : List (List Hit)).flatten
        = [mkDocument hitHalf, mkDocument hitNine5]
    ∧ (mkDocument hitHalf).score = 1/2
    ∧ (mkDocument hitNine5).score = 9/5
    ∧ ((1 : ℚ)/2 + 9/5) / 2 = 23/20
    ∧ (pipe defaultValves twoDocEnv "What is dark matter?" "m" [] []).1
        = .inr (pipeBody defaultValves twoDocEnv "What is dark matter?"
            (searchFilter defaultValves ([[hitHalf, hitNine5]] : List (List Hit)).flatten) [])
    ∧ (dictGet? (pipeMetadata twoDocEnv [mkDocument hitHalf, mkDocument hitNine5]
            ((format_context [mkDocument hitHalf, mkDocument hitNine5]).2)) "total_sources"
          = some (.int 2)
       ∧ dictGet? (pipeMetadata twoDocEnv [mkDocument hitHalf, mkDocument hitNine5]
            ((format_context [mkDocument hitHalf, mkDocument hitNine5]).2)) "average_score"
          = some (.num (((mkDocument hitHalf).score + (mkDocument hitNine5).score) / 2))
       ∧ (format_context [mkDocument hitHalf, mkDocument hitNine5]).1
          = llm_section 1 (mkDocument hitHalf) ++ "\n" ++ llm_section 2 (mkDocument hitNine5)
       ∧ (∃ r1, llm_section 1 (mkDocument hitHalf) = "Document 1 (" ++ r1)
       ∧ (∃ r2, llm_section 2 (mkDocument hitNine5) = "Document 2 (" ++ r2)
       ∧ ((([[hitHalf, hitNine5]] : List (List Hit)).flatten.map Hit.distance).Sorted (· ≤ ·)
            → (mkDocument hitHalf).score ≤ (mkDocument hitNine5).score)) := by
  have hdocs : searchFilter defaultValves ([[hitHalf, hitNine5]] : List (List Hit)).flatten
      = [mkDocument hitHalf, mkDocument hitNine5] := by
    norm_num [searchFilter, hitHalf, hitNine5, defaultValves]
  have hne : searchFilter defaultValves ([[hitHalf, hitNine5]] : List (List Hit)).flatten
      ≠ [] := by
    rw [hdocs]
    simp
  have main := C6_metadata_and_context defaultValves twoDocEnv "What is dark matter?" "m"
    [] [] [[hitHalf, hitNine5]] pyFalsy_get_embedding_zeroVec rfl hne
  exact ⟨pyFalsy_get_embedding_zeroVec, rfl, hne, hdocs, rfl, rfl, by norm_num, main.1,
    main.2.2.2.2 (mkDocument hitHalf) (mkDocument hitNine5) hdocs⟩

/-- C7: truncation is character-count based with per-field cutoffs — the
summary cutoff (200) is smaller than the abstract (500) and text (1000)
cutoffs — and a text field of length 2000 truncated at the 1000-character
cutoff yields exactly 1000 characters followed by the 3-character
continuation marker. -/
theorem C7_truncation (s : String) (h : s.length = 2000) :
    SUMMARY_TRUNC < ABSTRACT_TRUNC
    ∧ SUMMARY_TRUNC < TEXT_TRUNC
    ∧ truncExcerpt s TEXT_TRUNC = pySlice s 1000 ++ "..."
    ∧ (pySlice s TEXT_TRUNC).length = 1000
    ∧ (truncExcerpt s TEXT_TRUNC).length = 1000 + 3 := by
  have hd : s.data.length = 2000 := h
  have hslice : (pySlice s TEXT_TRUNC).length = 1000 := by
    show (s.data.take TEXT_TRUNC).length = 1000
    rw [List.length_take, hd]
    decide
  refine ⟨by decide, by decide, rfl, hslice, ?_⟩
  rw [truncExcerpt, String.length_append, hslice]
  decide

/-- C7 witness: a concrete 2000-character text field. -/
theorem C7_truncation_witness :
    longText.length = 2000
    ∧ (SUMMARY_TRUNC < ABSTRACT_TRUNC
       ∧ SUMMARY_TRUNC < TEXT_TRUNC
       ∧ truncExcerpt longText TEXT_TRUNC = pySlice longText 1000 ++ "..."
       ∧ (pySlice longText TEXT_TRUNC).length = 1000
       ∧ (truncExcerpt longText TEXT_TRUNC).length = 1000 + 3) := by
  have hlen : longText.length = 2000 := by
    show (List.replicate 2000 'a').length = 2000
    rw [List.length_replicate]
  exact ⟨hlen, C7_truncation longText hlen⟩

/-- C8 counterexample: for a retrieved document whose `abstract` and `text`
fields are the empty string, the formatted section renders those fields as the
bare continuation marker "..." — the empty value itself, not a placeholder —
while the delimited-list fields do get the "Not available" placeholder.  So
not *every* empty sub-field is replaced by a placeholder value. -/
theorem C8_counterexample :
    (mkDocument emptyFieldsHit).abstract = ""
    ∧ (mkDocument emptyFieldsHit).text = ""
    ∧ truncExcerpt (mkDocument emptyFieldsHit).abstract ABSTRACT_TRUNC = "..."
    ∧ truncExcerpt (mkDocument emptyFieldsHit).text TEXT_TRUNC = "..."
    ∧ ("..." : String) ≠ "Not available"
    ∧ llm_section 1 (mkDocument emptyFieldsHit)
        = "Document " ++ toString 1 ++ " (" ++ (mkDocument emptyFieldsHit).year ++ "): "
          ++ (mkDocument emptyFieldsHit).source_file ++ "\n\n"
          ++ "Abstract:\n" ++ "..." ++ "\n\n"
          ++ "Key Points:\n" ++ "Not available" ++ "\n\n"
          ++ "Technical Terms:\n" ++ "Not available" ++ "\n\n"
          ++ "Most Relevant Content:\n" ++ "..." ++ "\n\n"
          ++ "Relationships:\n" ++ "Not available" ++ "\n\n"
          ++ "Relevance Score: " ++ formatFixed 4 (mkDocument emptyFieldsHit).score
          ++ "\n" ++ "---\n" :=
  ⟨rfl, rfl, rfl, rfl, by decide, rfl⟩

theorem dictGet?_cons_ne (k k' : String) (v : Value) (d : PyDict)
    (h : (k' == k) = false) : dictGet? ((k', v) :: d) k = dictGet? d k := by
  simp [dictGet?, List.find?_cons, h]

theorem dictGet?_cons_self (k k' : String) (v : Value) (d : PyDict)
    (h : (k' == k) = true) : dictGet? ((k', v) :: d) k = some v := by
  simp [dictGet?, List.find?_cons, h]

/-- C8 amended: the formatter performs no I/O and is total on retriever
outputs (fields absent on the underlying record were already replaced by
defaults in `search_documents`); the empty delimited-list fields render as
the "Not available" placeholder and an empty summary as "No summary
available", while empty abstract/text fields render as bare (empty) truncated
excerpts, without a placeholder. -/
theorem C8_amended_formatting (hit : Hit) :
    (hit.key_points.getD "" = "" →
        format_bullet_points (mkDocument hit).key_points = "Not available")
    ∧ (hit.technical_terms.getD "" = "" →
        format_bullet_points (mkDocument hit).technical_terms = "Not available")
    ∧ (hit.relationships.getD "" = "" →
        format_bullet_points (mkDocument hit).relationships = "Not available")
    ∧ (hit.summary.getD "" = "" →
        dictGet? (mkUserMeta (mkDocument hit)) "summary"
          = some (.str "No summary available"))
    ∧ (hit.source_file = none →
        (mkDocument hit).source_file = "Unknown" ∧ (mkDocument hit).year = "Unknown")
    ∧ (hit.doc_id = none → (mkDocument hit).doc_id = -1)
    ∧ (hit.text = none → (mkDocument hit).text = "")
    ∧ (hit.abstract = none →
        truncExcerpt (mkDocument hit).abstract ABSTRACT_TRUNC = "...") := by
  refine ⟨fun h => ?_, fun h => ?_, fun h => ?_, fun h => ?_, fun h => ?_,
    fun h => ?_, fun h => ?_, fun h => ?_⟩
  · rw [show (mkDocument hit).key_points = hit.key_points.getD "" from rfl, h]
    rfl
  · rw [show (mkDocument hit).technical_terms = hit.technical_terms.getD "" from rfl, h]
    rfl
  · rw [show (mkDocument hit).relationships = hit.relationships.getD "" from rfl, h]
    rfl
  · have hs : (mkDocument hit).summary = "" := h
    rw [mkUserMeta, dictGet?_cons_ne _ _ _ _ (by decide),
        dictGet?_cons_self _ _ _ _ (by decide), hs]
    simp
  · have hsf : (mkDocument hit).source_file = "Unknown" := by
      rw [show (mkDocument hit).source_file = hit.source_file.getD "Unknown" from rfl, h]
      rfl
    refine ⟨hsf, ?_⟩
    rw [show (mkDocument hit).year = deriveYear (hit.source_file.getD "Unknown") from rfl,
        h]
    rfl
  · rw [show (mkDocument hit).doc_id = hit.doc_id.getD (-1) from rfl, h]
    rfl
  · rw [show (mkDocument hit).text = hit.text.getD "" from rfl, h]
    rfl
  · rw [show (mkDocument hit).abstract = hit.abstract.getD "" from rfl, h]
    rfl

/-- C8 amended witness: a record carrying none of the requested fields. -/
theorem C8_amended_formatting_witness :
    noFieldsHit.key_points.getD "" = ""
    ∧ noFieldsHit.summary.getD "" = ""
    ∧ noFieldsHit.source_file = none
    ∧ (format_bullet_points (mkDocument noFieldsHit).key_points = "Not available"
       ∧ dictGet? (mkUserMeta (mkDocument noFieldsHit)) "summary"
           = some (.str "No summary available")
       ∧ (mkDocument noFieldsHit).source_file = "Unknown"
       ∧ (mkDocument noFieldsHit).year = "Unknown"
       ∧ (mkDocument noFieldsHit).doc_id = -1) :=
  ⟨rfl, rfl, rfl,
   (C8_amended_formatting noFieldsHit).1 rfl,
   (C8_amended_formatting noFieldsHit).2.2.2.1 rfl,
   ((C8_amended_formatting noFieldsHit).2.2.2.2.1 rfl).1,
   ((C8_amended_formatting noFieldsHit).2.2.2.2.1 rfl).2,
   (C8_amended_formatting noFieldsHit).2.2.2.2.2.1 rfl⟩

/-- C9: every failure of a `pipe` run is converted at the orchestrator
boundary into a short user-facing message string — the fixed embedding-failure
message, the fixed no-results message, or the fixed error prefix followed by
the exception text — and retrieval-layer exceptions in particular are caught,
never propagated to the caller.  Every run returns either such a message or
the augmented body. -/
theorem C9_failures_become_messages (valves : Valves) (env : Env) (um mid : String)
    (msgs : List Value) (body : PyDict) :
    (pyFalsy (get_embedding env.embedResponse) = true →
        (pipe valves env um mid msgs body).1
          = .inl "Failed to generate embedding for your question.")
    ∧ (∀ e, pyFalsy (get_embedding env.embedResponse) = false →
        env.searchOutcome = .error e →
        (pipe valves env um mid msgs body).1
          = .inl ("An error occurred while processing your request: " ++ e))
    ∧ ((∃ b, (pipe valves env um mid msgs body).1 = .inr b)
       ∨ (∃ m, (pipe valves env um mid msgs body).1 = .inl m
            ∧ (m = "Failed to generate embedding for your question."
               ∨ m = "No relevant academic papers found for your question."
               ∨ ∃ e, env.searchOutcome = .error e
                   ∧ m = "An error occurred while processing your request: " ++ e))) := by
  refine ⟨fun h => ?_, fun e h he => ?_, ?_⟩
  · rw [pipe_embed_failed valves env um mid msgs body h]
  · rw [pipe_search_error valves env um mid msgs body e h he]
  · cases h : pyFalsy (get_embedding env.embedResponse) with
    | true =>
        rw [pipe_embed_failed valves env um mid msgs body h]
        exact Or.inr ⟨_, rfl, Or.inl rfl⟩
    | false =>
        cases hs : env.searchOutcome with
        | error e =>
            rw [pipe_search_error valves env um mid msgs body e h hs]
            exact Or.inr ⟨_, rfl, Or.inr (Or.inr ⟨e, rfl, rfl⟩)⟩
        | ok hits =>
            by_cases hemp : searchFilter valves hits.flatten = []
            · rw [pipe_no_docs valves env um mid msgs body hits h hs hemp]
              exact Or.inr ⟨_, rfl, Or.inr (Or.inl rfl)⟩
            · rw [pipe_success valves env um mid msgs body hits h hs hemp]
              exact Or.inl ⟨_, rfl⟩

/-- C9 witness: an unreachable index — the raised exception's text is wrapped
in the fixed error prefix and returned as a plain message string. -/
theorem C9_failures_become_messages_witness :
    pyFalsy (get_embedding errEnv.embedResponse) = false
    ∧ errEnv.searchOutcome = .error "connection refused"
    ∧ (pipe defaultValves errEnv "q" "m" [] []).1
        = .inl ("An error occurred while processing your request: " ++ "connection refused") :=
  ⟨pyFalsy_get_embedding_zeroVec, rfl,
   (C9_failures_become_messages defaultValves errEnv "q" "m" [] []).2.1
     "connection refused" pyFalsy_get_embedding_zeroVec rfl⟩

/-- C10: on a successful run, `pipe` returns the caller's `body` dict updated
at exactly the keys "messages" and "metadata"; every other key's binding is
unchanged in the returned dict. -/
theorem C10_body_frame (valves : Valves) (env : Env) (um mid : String)
    (msgs : List Value) (body : PyDict) (hits : List (List Hit))
    (hemb : pyFalsy (get_embedding env.embedResponse) = false)
    (hok : env.searchOutcome = .ok hits)
    (hne : searchFilter valves hits.flatten ≠ []) :
    (pipe valves env um mid msgs body).1
        = .inr (pipeBody valves env um (searchFilter valves hits.flatten) body)
    ∧ pipeBody valves env um (searchFilter valves hits.flatten) body
        = dictSet (dictSet body "messages"
            (pipeMessages valves um (format_context (searchFilter valves hits.flatten)).1))
            "metadata"
            (.dict (pipeMetadata env (searchFilter valves hits.flatten)
              (format_context (searchFilter valves hits.flatten)).2))
    ∧ dictGet? (pipeBody valves env um (searchFilter valves hits.flatten) body) "messages"
        = some (pipeMessages valves um (format_context (searchFilter valves hits.flatten)).1)
    ∧ dictGet? (pipeBody valves env um (searchFilter valves hits.flatten) body) "metadata"
        = some (.dict (pipeMetadata env (searchFilter valves hits.flatten)
            (format_context (searchFilter valves hits.flatten)).2))
    ∧ ∀ k, k ≠ "messages" → k ≠ "metadata" →
        dictGet? (pipeBody valves env um (searchFilter valves hits.flatten) body) k
          = dictGet? body k := by
  refine ⟨?_, rfl, ?_, ?_, ?_⟩
  · rw [pipe_success valves env um mid msgs body hits hemb hok hne]
  · show dictGet? (dictSet (dictSet body "messages" _) "metadata" _) "messages" = _
    rw [dictGet?_dictSet_ne _ _ _ _ (by decide), dictGet?_dictSet_self]
  · exact dictGet?_dictSet_self _ "metadata" _
  · intro k hk1 hk2
    show dictGet? (dictSet (dictSet body "messages" _) "metadata" _) k = _
    rw [dictGet?_dictSet_ne _ _ _ _ hk2, dictGet?_dictSet_ne _ _ _ _ hk1]

/-- C10 witness: a body holding a `temperature` key keeps it (and its value)
through a successful run. -/
theorem C10_body_frame_witness :
    pyFalsy (get_embedding okEnv.embedResponse) = false
    ∧ okEnv.searchOutcome = .ok [[oneHit]]
    ∧ searchFilter defaultValves ([[oneHit]] : List (List Hit)).flatten ≠ []
    ∧ ("temperature" : String) ≠ "messages"
    ∧ ("temperature" : String) ≠ "metadata"
    ∧ dictGet? (pipeBody defaultValves okEnv "q"
          (searchFilter defaultValves ([[oneHit]] : List (List Hit)).flatten) tempBody)
          "temperature"
        = dictGet? tempBody "temperature"
    ∧ dictGet? tempBody "temperature" = some (.num 1) :=
  ⟨pyFalsy_get_embedding_zeroVec, rfl, searchFilter_oneHit_ne_nil,
   by decide, by decide,
   (C10_body_frame defaultValves okEnv "q" "m" [] tempBody [[oneHit]]
      pyFalsy_get_embedding_zeroVec rfl searchFilter_oneHit_ne_nil).2.2.2.2
     "temperature" (by decide) (by decide),
   rfl⟩

end AcademicRag
